import Mathlib

/-!
Shallow embedding of the healthcare gateway verification logic from
`src/reference/solution.py` (class `HealthcareGatewayAgent`).

The per-call session state is the Python `global_data` dict; we model it as an
association list of string keys to Python-like values (`Dict`), with dict
`get`/merge semantics.  Each SWAIG tool (`identify_by_phone`, `verify_dob`,
`verify_ssn`, `route_appointments`, `route_billing`, `route_medical`) is a
function from the current dict and its arguments to a `SwaigFunctionResult`
(reply text, `update_global_data` payload, and the ordered call-control
actions attached to the result) together with the security-log entries the
tool emits via `_log_security_event`.

SHA-256 (`hashlib.sha256(...).hexdigest()`) is treated as an opaque digest
function: the code only ever compares digests for equality, so every
definition is parameterized by `sha256hex : String → String`; concrete
witnesses instantiate it with an explicit injective-on-the-relevant-inputs
function (`demo_hash`).  `datetime.now().isoformat()` and the configured
greeting are ambient inputs, modelled by an `Env` parameter.
-/

namespace HealthcareGateway

/-- A Python value as it occurs in `global_data` / log payloads. -/
inductive Val where
  | str : String → Val
  | nat : Nat → Val
  | bool : Bool → Val
  | pyNone : Val
deriving DecidableEq, Repr

/-- Python truthiness (`if not x`). -/
def Val.truthy : Val → Bool
  | .str s => !(s == "")
  | .nat n => !(n == 0)
  | .bool b => b
  | .pyNone => false

/-- Python integer coercion used for `global_data.get("verification_attempts", 0) + 1`.
In every state produced by the tools below the stored value is an int. -/
def Val.asNat : Val → Nat
  | .nat n => n
  | .bool b => if b then 1 else 0
  | _ => 0

/-- Python `str(x)` / f-string rendering of a value. -/
def Val.pyStr : Val → String
  | .str s => s
  | .nat n => toString n
  | .bool b => if b then "True" else "False"
  | .pyNone => "None"

/-- A Python dict with string keys, e.g. the per-call `global_data`. -/
abbrev Dict := List (String × Val)

/-- `d.get(k)` : first binding of `k`, if any. -/
def dget (d : Dict) (k : String) : Option Val :=
  (d.find? (fun p => p.1 == k)).map Prod.snd

/-- `d.get(k, v)` : lookup with default. -/
def dgetD (d : Dict) (k : String) (v : Val) : Val :=
  (dget d k).getD v

/-- `d[k] = v` : overwrite/insert a single key (map semantics). -/
def dset (d : Dict) (k : String) (v : Val) : Dict :=
  (k, v) :: d.filter (fun p => !(p.1 == k))

/-- `d.update(u)` : dict merge, with bindings of `u` overriding `d`. -/
def dmerge (d u : Dict) : Dict :=
  u.foldl (fun acc kv => dset acc kv.1 kv.2) d

/-- A patient record of the simulated `PATIENTS` database. -/
structure Patient where
  id : String
  name : String
  dob : String
  ssn_last4_hash : String
deriving DecidableEq, Repr

/-- `HealthcareGatewayAgent.PATIENTS`, keyed by phone number; the stored
`ssn_last4_hash` fields are `sha256hex` of the plaintexts in the source. -/
def PATIENTS (sha256hex : String → String) : List (String × Patient) :=
  [("+15551234567", ⟨"P001", "John Smith", "1985-03-15", sha256hex "1234"⟩),
   ("+15559876543", ⟨"P002", "Jane Doe", "1990-07-22", sha256hex "5678"⟩)]

/-- `HealthcareGatewayAgent.MAX_VERIFICATION_ATTEMPTS`. -/
def MAX_VERIFICATION_ATTEMPTS : Nat := 3

/-- A call-control action attached to a `SwaigFunctionResult`
(`stop_record_call` pauses recording, `record_call` resumes it). -/
inductive Intent where
  | stop_record_call (control_id : String)
  | record_call (control_id : String) (stereo : Bool) (format : String)
  | hangup
  | swml_transfer (route : String) (final_message : String) (final : Bool)
deriving DecidableEq, Repr

/-- The result object a tool returns: reply text, merged
`update_global_data` payload, and the ordered actions. -/
structure SwaigFunctionResult where
  response : String
  post_process : Bool := false
  update : Dict := []
  actions : List Intent := []
deriving DecidableEq, Repr

/-- `.stop_record_call(control_id=...)`. -/
def SwaigFunctionResult.stop_record_call (r : SwaigFunctionResult)
    (control_id : String) : SwaigFunctionResult :=
  { r with actions := r.actions ++ [Intent.stop_record_call control_id] }

/-- `.record_call(control_id=..., stereo=..., format=...)`. -/
def SwaigFunctionResult.record_call (r : SwaigFunctionResult)
    (control_id : String) (stereo : Bool) (fmt : String) : SwaigFunctionResult :=
  { r with actions := r.actions ++ [Intent.record_call control_id stereo fmt] }

/-- `.hangup()`. -/
def SwaigFunctionResult.hangup (r : SwaigFunctionResult) : SwaigFunctionResult :=
  { r with actions := r.actions ++ [Intent.hangup] }

/-- `.swml_transfer(route, final_message, final=...)`. -/
def SwaigFunctionResult.swml_transfer (r : SwaigFunctionResult)
    (route msg : String) (final : Bool) : SwaigFunctionResult :=
  { r with actions := r.actions ++ [Intent.swml_transfer route msg final] }

/-- `.update_global_data({...})`. -/
def SwaigFunctionResult.update_global_data (r : SwaigFunctionResult)
    (d : Dict) : SwaigFunctionResult :=
  { r with update := dmerge r.update d }

/-- One entry of the security log. -/
structure SecurityEvent where
  event_type : String
  data : Dict
deriving DecidableEq, Repr

/-- `HealthcareGatewayAgent._log_security_event`: the redaction filter drops
the keys `ssn`, `ssn_last4` and `dob` before the payload is logged. -/
def log_security_event (event_type : String) (data : Dict) : SecurityEvent :=
  ⟨event_type, data.filter (fun p => !(p.1 == "ssn" || p.1 == "ssn_last4" || p.1 == "dob"))⟩

/-- `HealthcareGatewayAgent._verify_ssn`: scan `PATIENTS` for the first record
whose `id` equals the candidate patient id (a `global_data` value, possibly
`None`) and compare digests. -/
def verify_ssn_lookup (sha256hex : String → String) (patient_id : Val)
    (ssn_last4 : String) : Bool :=
  match (PATIENTS sha256hex).find? (fun p => decide (Val.str p.2.id = patient_id)) with
  | some p => sha256hex ssn_last4 == p.2.ssn_last4_hash
  | none => false

/-- Ambient inputs of a tool invocation: the configured greeting read via
`get_global_data()['greeting']` and `datetime.now().isoformat()`. -/
structure Env where
  greeting : String
  now : String
deriving DecidableEq, Repr

/-- DOB normalization in `verify_dob`: `dob.replace("/", "-").strip()`. -/
def normalize_dob (dob : String) : String :=
  String.mk (((dob.data.map (fun c => if c == '/' then '-' else c)).dropWhile
    Char.isWhitespace).reverse.dropWhile Char.isWhitespace).reverse

/-- What one tool invocation produces: the returned result and the security
log entries written during the call. -/
structure StepResult where
  result : SwaigFunctionResult
  log : List SecurityEvent
deriving DecidableEq, Repr

/-- Tool `identify_by_phone`. -/
def identify_by_phone (sha256hex : String → String) (env : Env)
    (caller_id call_id : String) : StepResult :=
  match (PATIENTS sha256hex).find? (fun p => p.1 == caller_id) with
  | some p =>
      { result :=
          ({ response := env.greeting ++ ", " ++ p.2.name ++
               ". For security, please verify your date of birth." } :
            SwaigFunctionResult).update_global_data
            [("pending_patient_id", Val.str p.2.id),
             ("pending_patient_name", Val.str p.2.name),
             ("pending_dob", Val.str p.2.dob),
             ("verification_attempts", Val.nat 0)],
        log := [log_security_event "PATIENT_IDENTIFIED"
                 [("call_id", Val.str call_id), ("patient_id", Val.str p.2.id)]] }
  | none =>
      { result := { response := "I don't recognize this phone number. Could you provide your patient ID or date of birth?" },
        log := [] }

/-- Tool `verify_dob`. -/
def verify_dob (gd : Dict) (dob call_id : String) : StepResult :=
  let expected_dob := dgetD gd "pending_dob" Val.pyNone
  let patient_id := dgetD gd "pending_patient_id" Val.pyNone
  if !patient_id.truthy then
    { result := { response := "Let me first identify your account. What is your patient ID or phone number?" },
      log := [] }
  else
    let normalized_dob := normalize_dob dob
    if decide (Val.str normalized_dob = expected_dob) then
      { result :=
          (({ response := "Thank you. For final verification, please provide the last 4 digits of your SSN. I'm pausing the recording for your privacy." } :
             SwaigFunctionResult).stop_record_call "main").update_global_data
            [("dob_verified", Val.bool true)],
        log := [log_security_event "DOB_VERIFIED"
                 [("call_id", Val.str call_id), ("patient_id", patient_id)]] }
    else
      let attempts := (dgetD gd "verification_attempts" (Val.nat 0)).asNat + 1
      if MAX_VERIFICATION_ATTEMPTS ≤ attempts then
        { result :=
            ({ response := "Too many incorrect attempts. Please call back or visit the clinic with ID." } :
              SwaigFunctionResult).hangup,
          log := [log_security_event "VERIFICATION_LOCKED"
                   [("call_id", Val.str call_id), ("patient_id", patient_id)]] }
      else
        let remaining := MAX_VERIFICATION_ATTEMPTS - attempts
        { result :=
            ({ response := "That doesn't match our records. " ++ toString remaining ++ " attempts remaining." } :
              SwaigFunctionResult).update_global_data
              [("verification_attempts", Val.nat attempts)],
          log := [] }

/-- Tool `verify_ssn`. -/
def verify_ssn (sha256hex : String → String) (env : Env) (gd : Dict)
    (ssn_last4 call_id : String) : StepResult :=
  let patient_id := dgetD gd "pending_patient_id" Val.pyNone
  let patient_name := dgetD gd "pending_patient_name" Val.pyNone
  if !(dgetD gd "dob_verified" Val.pyNone).truthy then
    { result := { response := "Please verify your date of birth first." },
      log := [] }
  else if verify_ssn_lookup sha256hex patient_id ssn_last4 then
    { result :=
        (({ response := "Thank you, " ++ patient_name.pyStr ++ ". Your identity is verified. Recording has resumed. How can I help you today? I can help with appointments, billing, or medical questions." } :
           SwaigFunctionResult).record_call "main" true "mp3").update_global_data
          [("verified", Val.bool true),
           ("patient_id", patient_id),
           ("patient_name", patient_name),
           ("verified_at", Val.str env.now)],
      log := [log_security_event "VERIFICATION_SUCCESS"
               [("call_id", Val.str call_id), ("patient_id", patient_id)]] }
  else
    let attempts := (dgetD gd "verification_attempts" (Val.nat 0)).asNat + 1
    let failure_log := log_security_event "SSN_VERIFICATION_FAILED"
      [("call_id", Val.str call_id), ("attempts", Val.nat attempts)]
    if MAX_VERIFICATION_ATTEMPTS ≤ attempts then
      { result :=
          (({ response := "Too many incorrect attempts. Account locked." } :
             SwaigFunctionResult).record_call "main" true "mp3").hangup,
        log := [failure_log] }
    else
      let remaining := MAX_VERIFICATION_ATTEMPTS - attempts
      { result :=
          ({ response := "That doesn't match. " ++ toString remaining ++ " attempts remaining." } :
            SwaigFunctionResult).update_global_data
            [("verification_attempts", Val.nat attempts)],
        log := [failure_log] }

/-- Tool `route_appointments`. -/
def route_appointments (gd : Dict) : StepResult :=
  if !(dgetD gd "verified" Val.pyNone).truthy then
    { result := { response := "I need to verify your identity first." }, log := [] }
  else
    { result :=
        ({ response := "Connecting you to scheduling.", post_process := true } :
          SwaigFunctionResult).swml_transfer "/appointments" "Goodbye!" true,
      log := [] }

/-- Tool `route_billing`. -/
def route_billing (gd : Dict) : StepResult :=
  if !(dgetD gd "verified" Val.pyNone).truthy then
    { result := { response := "I need to verify your identity first." }, log := [] }
  else
    { result :=
        ({ response := "Connecting you to billing.", post_process := true } :
          SwaigFunctionResult).swml_transfer "/billing" "Goodbye!" true,
      log := [] }

/-- Tool `route_medical`. -/
def route_medical (gd : Dict) : StepResult :=
  if !(dgetD gd "verified" Val.pyNone).truthy then
    { result := { response := "I need to verify your identity first." }, log := [] }
  else
    { result :=
        ({ response := "Connecting you to our medical team.", post_process := true } :
          SwaigFunctionResult).swml_transfer "/medical" "Goodbye!" true,
      log := [] }

/-- An inbound tool-dispatch event for one call. -/
inductive Event where
  | identify_by_phone (caller_id : String) (call_id : String)
  | submit_dob (dob : String) (call_id : String)
  | submit_ssn (ssn_last4 : String) (call_id : String)
  | route_appointments (call_id : String)
  | route_billing (call_id : String)
  | route_medical (call_id : String)
deriving DecidableEq, Repr

/-- Dispatch one event against the session dict and apply the result's
`update_global_data` payload (the SDK merges it into `global_data`). -/
def step (sha256hex : String → String) (env : Env) (gd : Dict) :
    Event → Dict × StepResult
  | .identify_by_phone caller_id call_id =>
      let r := identify_by_phone sha256hex env caller_id call_id
      (dmerge gd r.result.update, r)
  | .submit_dob dob call_id =>
      let r := verify_dob gd dob call_id
      (dmerge gd r.result.update, r)
  | .submit_ssn ssn call_id =>
      let r := verify_ssn sha256hex env gd ssn call_id
      (dmerge gd r.result.update, r)
  | .route_appointments _ =>
      let r := route_appointments gd
      (dmerge gd r.result.update, r)
  | .route_billing _ =>
      let r := route_billing gd
      (dmerge gd r.result.update, r)
  | .route_medical _ =>
      let r := route_medical gd
      (dmerge gd r.result.update, r)

/-- Run a sequence of events (each with its ambient inputs) from a state. -/
def runE (sha256hex : String → String) (gd : Dict) :
    List (Env × Event) → Dict
  | [] => gd
  | (env, e) :: es => runE sha256hex (step sha256hex env gd e).1 es

/-- `_configure_global_data`: the agent-level global data set at startup for
a given local hour; a fresh call starts with exactly these keys. -/
def initial_global_data (hour : Nat) : Dict :=
  [("clinic_name", Val.str "HealthFirst Medical"),
   ("business_hours", Val.str "8 AM to 6 PM"),
   ("is_open", Val.bool (decide (8 ≤ hour) && decide (hour < 18))),
   ("greeting", Val.str (if hour < 12 then "Good morning" else "Good afternoon"))]

/-- A concrete digest function for witnesses and counterexamples; only
equality/inequality of digests matters to the verification logic. -/
def demo_hash : String → String := fun s => String.append "#" s

/-- A concrete ambient environment for witnesses. -/
def envA : Env := ⟨"Good morning", "2026-10-12T09:00:00"⟩

end HealthcareGateway

namespace HealthcareGateway

/-- A second ambient environment (a later timestamp). -/
def envB : Env := ⟨"Good morning", "2026-10-12T10:30:00"⟩

/-- Concrete events for the registered caller `+15551234567` (patient P001). -/
def e_identify : Event := Event.identify_by_phone "+15551234567" "c1"

def e_dob_ok : Event := Event.submit_dob "1985-03-15" "c1"

def e_dob_bad : Event := Event.submit_dob "1999-01-01" "c1"

def e_ssn_ok : Event := Event.submit_ssn "1234" "c1"

def e_ssn_bad : Event := Event.submit_ssn "0000" "c1"

/-- The happy-path trace: identify, correct DOB, correct SSN last-4. -/
def happy_trace : List (Env × Event) := [(envA, e_identify), (envA, e_dob_ok), (envA, e_ssn_ok)]

/-- Session state right after a successful identification of P001. -/
def gd_identified : Dict := runE demo_hash (initial_global_data 9) [(envA, e_identify)]

/-- Session state after identification and two failed DOB attempts. -/
def gd_two_dob_failures : Dict :=
  runE demo_hash (initial_global_data 9)
    [(envA, e_identify), (envA, e_dob_bad), (envA, e_dob_bad)]

/-- Session state after two failed DOB attempts followed by a correct DOB. -/
def gd_dob_ok_after_two_failures : Dict :=
  runE demo_hash (initial_global_data 9)
    [(envA, e_identify), (envA, e_dob_bad), (envA, e_dob_bad), (envA, e_dob_ok)]

/-- Session state after the happy-path trace (fully verified at `envA.now`). -/
def gd_verified : Dict := runE demo_hash (initial_global_data 9) happy_trace

/-! ### Dictionary lemmas -/

theorem find?_filter_of_imp {α : Type} (l : List α) (p q : α → Bool)
    (h : ∀ x, p x = true → q x = true) :
    (l.filter q).find? p = l.find? p := by
  induction l with
  | nil => rfl
  | cons a l ih =>
    rw [List.filter_cons]
    by_cases hq : q a = true
    · rw [if_pos hq]
      by_cases hp : p a = true
      · rw [List.find?_cons_of_pos _ hp, List.find?_cons_of_pos _ hp]
      · rw [List.find?_cons_of_neg _ hp, List.find?_cons_of_neg _ hp, ih]
    · have hp : ¬ p a = true := fun hpa => hq (h a hpa)
      rw [if_neg hq, List.find?_cons_of_neg _ hp, ih]

@[simp]
theorem dget_dset_self (d : Dict) (k : String) (v : Val) :
    dget (dset d k v) k = some v := by
  simp [dget, dset, List.find?_cons_of_pos]

@[simp]
theorem dget_dset_ne (d : Dict) (k k' : String) (v : Val) (h : ¬ k' = k) :
    dget (dset d k v) k' = dget d k' := by
  have hk : ¬ ((fun (p : String × Val) => p.1 == k') (k, v)) = true := by
    simp only [beq_iff_eq]
    exact fun he => h he.symm
  unfold dget dset
  rw [@List.find?_cons_of_neg (String × Val) (fun p => p.1 == k') (k, v)
      (List.filter (fun p => !(p.1 == k)) d) hk]
  rw [find?_filter_of_imp]
  intro x hx
  simp only [beq_iff_eq] at hx
  simp only [Bool.not_eq_true', beq_eq_false_iff_ne, ne_eq]
  rw [hx]
  exact h

theorem dmerge_nil (d : Dict) : dmerge d [] = d := rfl

theorem dmerge_cons (d : Dict) (k : String) (v : Val) (u : Dict) :
    dmerge d ((k, v) :: u) = dmerge (dset d k v) u := rfl


theorem dget_dmerge_of_not_key (u : Dict) (gd : Dict) (k : String)
    (h : ∀ p ∈ u, ¬ k = p.1) : dget (dmerge gd u) k = dget gd k := by
  induction u generalizing gd with
  | nil => rfl
  | cons a u ih =>
    rw [show dmerge gd (a :: u) = dmerge (dset gd a.1 a.2) u from rfl,
      ih _ (fun p hp => h p (List.mem_cons_of_mem a hp)),
      dget_dset_ne _ _ _ _ (h a (List.mem_cons_self a u))]

/-! ### Branch characterizations of the tools -/

theorem step_identify_found (sha256hex : String → String) (env : Env) (gd : Dict)
    (caller_id call_id : String) (p : String × Patient)
    (hf : (PATIENTS sha256hex).find? (fun q => q.1 == caller_id) = some p) :
    step sha256hex env gd (Event.identify_by_phone caller_id call_id) =
    (dset (dset (dset (dset gd "verification_attempts" (Val.nat 0))
        "pending_dob" (Val.str p.2.dob)) "pending_patient_name" (Val.str p.2.name))
        "pending_patient_id" (Val.str p.2.id),
     { result :=
         { response := env.greeting ++ ", " ++ p.2.name ++
             ". For security, please verify your date of birth.",
           update := [("verification_attempts", Val.nat 0),
                      ("pending_dob", Val.str p.2.dob),
                      ("pending_patient_name", Val.str p.2.name),
                      ("pending_patient_id", Val.str p.2.id)] },
       log := [⟨"PATIENT_IDENTIFIED",
                [("call_id", Val.str call_id), ("patient_id", Val.str p.2.id)]⟩] }) := by
  simp only [step, identify_by_phone]
  rw [hf]
  rfl

theorem step_identify_not_found (sha256hex : String → String) (env : Env) (gd : Dict)
    (caller_id call_id : String)
    (hf : (PATIENTS sha256hex).find? (fun q => q.1 == caller_id) = none) :
    step sha256hex env gd (Event.identify_by_phone caller_id call_id) =
    (gd,
     { result := { response := "I don't recognize this phone number. Could you provide your patient ID or date of birth?" },
       log := [] }) := by
  simp only [step, identify_by_phone]
  rw [hf]
  rfl

theorem step_dob_no_patient (sha256hex : String → String) (env : Env) (gd : Dict)
    (dob call_id : String)
    (hpid : (dgetD gd "pending_patient_id" Val.pyNone).truthy = false) :
    step sha256hex env gd (Event.submit_dob dob call_id) =
    (gd,
     { result := { response := "Let me first identify your account. What is your patient ID or phone number?" },
       log := [] }) := by
  simp only [step, verify_dob, hpid]
  rfl

theorem step_dob_match (sha256hex : String → String) (env : Env) (gd : Dict)
    (dob call_id : String)
    (hpid : (dgetD gd "pending_patient_id" Val.pyNone).truthy = true)
    (hm : Val.str (normalize_dob dob) = dgetD gd "pending_dob" Val.pyNone) :
    step sha256hex env gd (Event.submit_dob dob call_id) =
    (dset gd "dob_verified" (Val.bool true),
     { result :=
         { response := "Thank you. For final verification, please provide the last 4 digits of your SSN. I'm pausing the recording for your privacy.",
           update := [("dob_verified", Val.bool true)],
           actions := [Intent.stop_record_call "main"] },
       log := [⟨"DOB_VERIFIED",
                [("call_id", Val.str call_id),
                 ("patient_id", dgetD gd "pending_patient_id" Val.pyNone)]⟩] }) := by
  have hc : decide (Val.str (normalize_dob dob) = dgetD gd "pending_dob" Val.pyNone) = true :=
    decide_eq_true hm
  simp only [step, verify_dob, hpid, hc]
  rfl

theorem step_dob_lockout (sha256hex : String → String) (env : Env) (gd : Dict)
    (dob call_id : String)
    (hpid : (dgetD gd "pending_patient_id" Val.pyNone).truthy = true)
    (hm : ¬ Val.str (normalize_dob dob) = dgetD gd "pending_dob" Val.pyNone)
    (h3 : MAX_VERIFICATION_ATTEMPTS ≤ (dgetD gd "verification_attempts" (Val.nat 0)).asNat + 1) :
    step sha256hex env gd (Event.submit_dob dob call_id) =
    (gd,
     { result :=
         { response := "Too many incorrect attempts. Please call back or visit the clinic with ID.",
           actions := [Intent.hangup] },
       log := [⟨"VERIFICATION_LOCKED",
                [("call_id", Val.str call_id),
                 ("patient_id", dgetD gd "pending_patient_id" Val.pyNone)]⟩] }) := by
  have hc : decide (Val.str (normalize_dob dob) = dgetD gd "pending_dob" Val.pyNone) = false :=
    decide_eq_false hm
  simp only [step, verify_dob, hpid, hc]
  rw [if_pos h3]
  rfl

theorem step_dob_retry (sha256hex : String → String) (env : Env) (gd : Dict)
    (dob call_id : String)
    (hpid : (dgetD gd "pending_patient_id" Val.pyNone).truthy = true)
    (hm : ¬ Val.str (normalize_dob dob) = dgetD gd "pending_dob" Val.pyNone)
    (h3 : ¬ MAX_VERIFICATION_ATTEMPTS ≤ (dgetD gd "verification_attempts" (Val.nat 0)).asNat + 1) :
    step sha256hex env gd (Event.submit_dob dob call_id) =
    (dset gd "verification_attempts"
       (Val.nat ((dgetD gd "verification_attempts" (Val.nat 0)).asNat + 1)),
     { result :=
         { response := "That doesn't match our records. " ++
             toString (MAX_VERIFICATION_ATTEMPTS -
               ((dgetD gd "verification_attempts" (Val.nat 0)).asNat + 1)) ++
             " attempts remaining.",
           update := [("verification_attempts",
             Val.nat ((dgetD gd "verification_attempts" (Val.nat 0)).asNat + 1))] },
       log := [] }) := by
  have hc : decide (Val.str (normalize_dob dob) = dgetD gd "pending_dob" Val.pyNone) = false :=
    decide_eq_false hm
  simp only [step, verify_dob, hpid, hc]
  rw [if_neg h3]
  rfl

theorem step_ssn_precondition (sha256hex : String → String) (env : Env) (gd : Dict)
    (ssn_last4 call_id : String)
    (hdv : (dgetD gd "dob_verified" Val.pyNone).truthy = false) :
    step sha256hex env gd (Event.submit_ssn ssn_last4 call_id) =
    (gd,
     { result := { response := "Please verify your date of birth first." },
       log := [] }) := by
  simp only [step, verify_ssn, hdv]
  rfl

theorem step_ssn_success (sha256hex : String → String) (env : Env) (gd : Dict)
    (ssn_last4 call_id : String)
    (hdv : (dgetD gd "dob_verified" Val.pyNone).truthy = true)
    (hvs : verify_ssn_lookup sha256hex (dgetD gd "pending_patient_id" Val.pyNone) ssn_last4 = true) :
    step sha256hex env gd (Event.submit_ssn ssn_last4 call_id) =
    (dset (dset (dset (dset gd "verified_at" (Val.str env.now))
        "patient_name" (dgetD gd "pending_patient_name" Val.pyNone))
        "patient_id" (dgetD gd "pending_patient_id" Val.pyNone))
        "verified" (Val.bool true),
     { result :=
         { response := "Thank you, " ++ (dgetD gd "pending_patient_name" Val.pyNone).pyStr ++
             ". Your identity is verified. Recording has resumed. How can I help you today? I can help with appointments, billing, or medical questions.",
           update := [("verified_at", Val.str env.now),
                      ("patient_name", dgetD gd "pending_patient_name" Val.pyNone),
                      ("patient_id", dgetD gd "pending_patient_id" Val.pyNone),
                      ("verified", Val.bool true)],
           actions := [Intent.record_call "main" true "mp3"] },
       log := [⟨"VERIFICATION_SUCCESS",
                [("call_id", Val.str call_id),
                 ("patient_id", dgetD gd "pending_patient_id" Val.pyNone)]⟩] }) := by
  simp only [step, verify_ssn, hdv, hvs]
  rfl

theorem step_ssn_lockout (sha256hex : String → String) (env : Env) (gd : Dict)
    (ssn_last4 call_id : String)
    (hdv : (dgetD gd "dob_verified" Val.pyNone).truthy = true)
    (hvs : verify_ssn_lookup sha256hex (dgetD gd "pending_patient_id" Val.pyNone) ssn_last4 = false)
    (h3 : MAX_VERIFICATION_ATTEMPTS ≤ (dgetD gd "verification_attempts" (Val.nat 0)).asNat + 1) :
    step sha256hex env gd (Event.submit_ssn ssn_last4 call_id) =
    (gd,
     { result :=
         { response := "Too many incorrect attempts. Account locked.",
           actions := [Intent.record_call "main" true "mp3", Intent.hangup] },
       log := [⟨"SSN_VERIFICATION_FAILED",
                [("call_id", Val.str call_id),
                 ("attempts", Val.nat ((dgetD gd "verification_attempts" (Val.nat 0)).asNat + 1))]⟩] }) := by
  simp only [step, verify_ssn, hdv, hvs]
  rw [if_pos h3]
  rfl

theorem step_ssn_retry (sha256hex : String → String) (env : Env) (gd : Dict)
    (ssn_last4 call_id : String)
    (hdv : (dgetD gd "dob_verified" Val.pyNone).truthy = true)
    (hvs : verify_ssn_lookup sha256hex (dgetD gd "pending_patient_id" Val.pyNone) ssn_last4 = false)
    (h3 : ¬ MAX_VERIFICATION_ATTEMPTS ≤ (dgetD gd "verification_attempts" (Val.nat 0)).asNat + 1) :
    step sha256hex env gd (Event.submit_ssn ssn_last4 call_id) =
    (dset gd "verification_attempts"
       (Val.nat ((dgetD gd "verification_attempts" (Val.nat 0)).asNat + 1)),
     { result :=
         { response := "That doesn't match. " ++
             toString (MAX_VERIFICATION_ATTEMPTS -
               ((dgetD gd "verification_attempts" (Val.nat 0)).asNat + 1)) ++
             " attempts remaining.",
           update := [("verification_attempts",
             Val.nat ((dgetD gd "verification_attempts" (Val.nat 0)).asNat + 1))] },
       log := [⟨"SSN_VERIFICATION_FAILED",
                [("call_id", Val.str call_id),
                 ("attempts", Val.nat ((dgetD gd "verification_attempts" (Val.nat 0)).asNat + 1))]⟩] }) := by
  simp only [step, verify_ssn, hdv, hvs]
  rw [if_neg h3]
  rfl

theorem step_route_appointments_denied (sha256hex : String → String) (env : Env)
    (gd : Dict) (call_id : String)
    (hv : (dgetD gd "verified" Val.pyNone).truthy = false) :
    step sha256hex env gd (Event.route_appointments call_id) =
    (gd, { result := { response := "I need to verify your identity first." }, log := [] }) := by
  simp only [step, route_appointments, hv]
  rfl

theorem step_route_appointments_allowed (sha256hex : String → String) (env : Env)
    (gd : Dict) (call_id : String)
    (hv : (dgetD gd "verified" Val.pyNone).truthy = true) :
    step sha256hex env gd (Event.route_appointments call_id) =
    (gd,
     { result :=
         { response := "Connecting you to scheduling.", post_process := true,
           actions := [Intent.swml_transfer "/appointments" "Goodbye!" true] },
       log := [] }) := by
  simp only [step, route_appointments, hv]
  rfl

theorem step_route_billing_denied (sha256hex : String → String) (env : Env)
    (gd : Dict) (call_id : String)
    (hv : (dgetD gd "verified" Val.pyNone).truthy = false) :
    step sha256hex env gd (Event.route_billing call_id) =
    (gd, { result := { response := "I need to verify your identity first." }, log := [] }) := by
  simp only [step, route_billing, hv]
  rfl

theorem step_route_billing_allowed (sha256hex : String → String) (env : Env)
    (gd : Dict) (call_id : String)
    (hv : (dgetD gd "verified" Val.pyNone).truthy = true) :
    step sha256hex env gd (Event.route_billing call_id) =
    (gd,
     { result :=
         { response := "Connecting you to billing.", post_process := true,
           actions := [Intent.swml_transfer "/billing" "Goodbye!" true] },
       log := [] }) := by
  simp only [step, route_billing, hv]
  rfl

theorem step_route_medical_denied (sha256hex : String → String) (env : Env)
    (gd : Dict) (call_id : String)
    (hv : (dgetD gd "verified" Val.pyNone).truthy = false) :
    step sha256hex env gd (Event.route_medical call_id) =
    (gd, { result := { response := "I need to verify your identity first." }, log := [] }) := by
  simp only [step, route_medical, hv]
  rfl

theorem step_route_medical_allowed (sha256hex : String → String) (env : Env)
    (gd : Dict) (call_id : String)
    (hv : (dgetD gd "verified" Val.pyNone).truthy = true) :
    step sha256hex env gd (Event.route_medical call_id) =
    (gd,
     { result :=
         { response := "Connecting you to our medical team.", post_process := true,
           actions := [Intent.swml_transfer "/medical" "Goodbye!" true] },
       log := [] }) := by
  simp only [step, route_medical, hv]
  rfl

/-! ### Where the `verified` and `dob_verified` flags can come from -/

theorem verified_after_step (sha256hex : String → String) (env : Env) (gd : Dict) (e : Event)
    (h : (dgetD ((step sha256hex env gd e).1) "verified" Val.pyNone).truthy = true) :
    (dgetD gd "verified" Val.pyNone).truthy = true ∨
    ∃ ssn cid, e = Event.submit_ssn ssn cid ∧
      (dgetD gd "dob_verified" Val.pyNone).truthy = true ∧
      verify_ssn_lookup sha256hex (dgetD gd "pending_patient_id" Val.pyNone) ssn = true := by
  cases e with
  | identify_by_phone caller_id call_id =>
      left
      cases hf : (PATIENTS sha256hex).find? (fun q => q.1 == caller_id) with
      | some p =>
          rw [step_identify_found sha256hex env gd caller_id call_id p hf] at h
          simpa [dgetD] using h
      | none =>
          rw [step_identify_not_found sha256hex env gd caller_id call_id hf] at h
          exact h
  | submit_dob dob call_id =>
      left
      rcases Bool.eq_false_or_eq_true ((dgetD gd "pending_patient_id" Val.pyNone).truthy)
        with hpid | hpid
      · by_cases hm : Val.str (normalize_dob dob) = dgetD gd "pending_dob" Val.pyNone
        · rw [step_dob_match sha256hex env gd dob call_id hpid hm] at h
          simpa [dgetD] using h
        · by_cases h3 : MAX_VERIFICATION_ATTEMPTS ≤
              (dgetD gd "verification_attempts" (Val.nat 0)).asNat + 1
          · rw [step_dob_lockout sha256hex env gd dob call_id hpid hm h3] at h
            exact h
          · rw [step_dob_retry sha256hex env gd dob call_id hpid hm h3] at h
            simpa [dgetD] using h
      · rw [step_dob_no_patient sha256hex env gd dob call_id hpid] at h
        exact h
  | submit_ssn ssn call_id =>
      rcases Bool.eq_false_or_eq_true ((dgetD gd "dob_verified" Val.pyNone).truthy)
        with hdv | hdv
      · rcases Bool.eq_false_or_eq_true
          (verify_ssn_lookup sha256hex (dgetD gd "pending_patient_id" Val.pyNone) ssn)
          with hvs | hvs
        · exact Or.inr ⟨ssn, call_id, rfl, hdv, hvs⟩
        · left
          by_cases h3 : MAX_VERIFICATION_ATTEMPTS ≤
              (dgetD gd "verification_attempts" (Val.nat 0)).asNat + 1
          · rw [step_ssn_lockout sha256hex env gd ssn call_id hdv hvs h3] at h
            exact h
          · rw [step_ssn_retry sha256hex env gd ssn call_id hdv hvs h3] at h
            simpa [dgetD] using h
      · left
        rw [step_ssn_precondition sha256hex env gd ssn call_id hdv] at h
        exact h
  | route_appointments call_id =>
      left
      rcases Bool.eq_false_or_eq_true ((dgetD gd "verified" Val.pyNone).truthy) with hv | hv
      · exact hv
      · rw [step_route_appointments_denied sha256hex env gd call_id hv] at h
        exact h
  | route_billing call_id =>
      left
      rcases Bool.eq_false_or_eq_true ((dgetD gd "verified" Val.pyNone).truthy) with hv | hv
      · exact hv
      · rw [step_route_billing_denied sha256hex env gd call_id hv] at h
        exact h
  | route_medical call_id =>
      left
      rcases Bool.eq_false_or_eq_true ((dgetD gd "verified" Val.pyNone).truthy) with hv | hv
      · exact hv
      · rw [step_route_medical_denied sha256hex env gd call_id hv] at h
        exact h

theorem dob_verified_after_step (sha256hex : String → String) (env : Env) (gd : Dict) (e : Event)
    (h : (dgetD ((step sha256hex env gd e).1) "dob_verified" Val.pyNone).truthy = true) :
    (dgetD gd "dob_verified" Val.pyNone).truthy = true ∨
    ∃ dob cid, e = Event.submit_dob dob cid ∧
      (dgetD gd "pending_patient_id" Val.pyNone).truthy = true ∧
      Val.str (normalize_dob dob) = dgetD gd "pending_dob" Val.pyNone := by
  cases e with
  | identify_by_phone caller_id call_id =>
      left
      cases hf : (PATIENTS sha256hex).find? (fun q => q.1 == caller_id) with
      | some p =>
          rw [step_identify_found sha256hex env gd caller_id call_id p hf] at h
          simpa [dgetD] using h
      | none =>
          rw [step_identify_not_found sha256hex env gd caller_id call_id hf] at h
          exact h
  | submit_dob dob call_id =>
      rcases Bool.eq_false_or_eq_true ((dgetD gd "pending_patient_id" Val.pyNone).truthy)
        with hpid | hpid
      · by_cases hm : Val.str (normalize_dob dob) = dgetD gd "pending_dob" Val.pyNone
        · exact Or.inr ⟨dob, call_id, rfl, hpid, hm⟩
        · left
          by_cases h3 : MAX_VERIFICATION_ATTEMPTS ≤
              (dgetD gd "verification_attempts" (Val.nat 0)).asNat + 1
          · rw [step_dob_lockout sha256hex env gd dob call_id hpid hm h3] at h
            exact h
          · rw [step_dob_retry sha256hex env gd dob call_id hpid hm h3] at h
            simpa [dgetD] using h
      · left
        rw [step_dob_no_patient sha256hex env gd dob call_id hpid] at h
        exact h
  | submit_ssn ssn call_id =>
      left
      rcases Bool.eq_false_or_eq_true ((dgetD gd "dob_verified" Val.pyNone).truthy)
        with hdv | hdv
      · exact hdv
      · rw [step_ssn_precondition sha256hex env gd ssn call_id hdv] at h
        exact h
  | route_appointments call_id =>
      left
      rcases Bool.eq_false_or_eq_true ((dgetD gd "verified" Val.pyNone).truthy) with hv | hv
      · rw [step_route_appointments_allowed sha256hex env gd call_id hv] at h
        exact h
      · rw [step_route_appointments_denied sha256hex env gd call_id hv] at h
        exact h
  | route_billing call_id =>
      left
      rcases Bool.eq_false_or_eq_true ((dgetD gd "verified" Val.pyNone).truthy) with hv | hv
      · rw [step_route_billing_allowed sha256hex env gd call_id hv] at h
        exact h
      · rw [step_route_billing_denied sha256hex env gd call_id hv] at h
        exact h
  | route_medical call_id =>
      left
      rcases Bool.eq_false_or_eq_true ((dgetD gd "verified" Val.pyNone).truthy) with hv | hv
      · rw [step_route_medical_allowed sha256hex env gd call_id hv] at h
        exact h
      · rw [step_route_medical_denied sha256hex env gd call_id hv] at h
        exact h

/-! ### Trace-level provenance of the verification flags -/

theorem verified_trace (sha256hex : String → String) (tr : List (Env × Event)) :
    ∀ gd : Dict,
      (dgetD (runE sha256hex gd tr) "verified" Val.pyNone).truthy = true →
      (dgetD gd "verified" Val.pyNone).truthy = true ∨
      ∃ i : Fin tr.length, ∃ ssn cid,
        (tr.get i).2 = Event.submit_ssn ssn cid ∧
        (dgetD (runE sha256hex gd (tr.take i.val)) "dob_verified" Val.pyNone).truthy = true ∧
        verify_ssn_lookup sha256hex
          (dgetD (runE sha256hex gd (tr.take i.val)) "pending_patient_id" Val.pyNone)
          ssn = true := by
  induction tr with
  | nil => exact fun gd h => Or.inl h
  | cons x tr ih =>
      obtain ⟨env, e⟩ := x
      intro gd h
      rcases ih (step sha256hex env gd e).1 h with hv | ⟨i, ssn, cid, he, hdv, hvs⟩
      · rcases verified_after_step sha256hex env gd e hv with hv0 | ⟨ssn, cid, he, hdv, hvs⟩
        · exact Or.inl hv0
        · exact Or.inr ⟨⟨0, Nat.succ_pos _⟩, ssn, cid, he, hdv, hvs⟩
      · exact Or.inr ⟨⟨i.val + 1, Nat.succ_lt_succ i.isLt⟩, ssn, cid, he, hdv, hvs⟩

theorem dob_verified_trace (sha256hex : String → String) (tr : List (Env × Event)) :
    ∀ gd : Dict,
      (dgetD (runE sha256hex gd tr) "dob_verified" Val.pyNone).truthy = true →
      (dgetD gd "dob_verified" Val.pyNone).truthy = true ∨
      ∃ j : Fin tr.length, ∃ dob cid,
        (tr.get j).2 = Event.submit_dob dob cid ∧
        (dgetD (runE sha256hex gd (tr.take j.val)) "pending_patient_id" Val.pyNone).truthy
          = true ∧
        Val.str (normalize_dob dob) =
          dgetD (runE sha256hex gd (tr.take j.val)) "pending_dob" Val.pyNone := by
  induction tr with
  | nil => exact fun gd h => Or.inl h
  | cons x tr ih =>
      obtain ⟨env, e⟩ := x
      intro gd h
      rcases ih (step sha256hex env gd e).1 h with hv | ⟨j, dob, cid, he, hpid, hm⟩
      · rcases dob_verified_after_step sha256hex env gd e hv with hv0 | ⟨dob, cid, he, hpid, hm⟩
        · exact Or.inl hv0
        · exact Or.inr ⟨⟨0, Nat.succ_pos _⟩, dob, cid, he, hpid, hm⟩
      · exact Or.inr ⟨⟨j.val + 1, Nat.succ_lt_succ j.isLt⟩, dob, cid, he, hpid, hm⟩

/-! ### Claim C1 -/

/-- C1: for every session trace starting from the configured global data, the
VERIFIED state (`verified` truthy in `global_data`) is reached only through a
`SubmitSSN` event delivered while `dob_verified` was already truthy and whose
submitted value's SSN digest matched the stored digest of the candidate
patient, and `dob_verified` itself was obtained from an earlier `SubmitDOB`
event whose normalized value matched the stored DOB — no sequence of events
reaches VERIFIED while skipping either factor. -/
theorem C1_verified_requires_both_factors (sha256hex : String → String) (hour : Nat)
    (tr : List (Env × Event))
    (hv : (dgetD (runE sha256hex (initial_global_data hour) tr) "verified"
      Val.pyNone).truthy = true) :
    ∃ i : Fin tr.length, ∃ ssn cid,
      (tr.get i).2 = Event.submit_ssn ssn cid ∧
      (dgetD (runE sha256hex (initial_global_data hour) (tr.take i.val)) "dob_verified"
        Val.pyNone).truthy = true ∧
      verify_ssn_lookup sha256hex
        (dgetD (runE sha256hex (initial_global_data hour) (tr.take i.val))
          "pending_patient_id" Val.pyNone) ssn = true ∧
      ∃ j : Fin tr.length, j.val < i.val ∧ ∃ dob cid2,
        (tr.get j).2 = Event.submit_dob dob cid2 ∧
        Val.str (normalize_dob dob) =
          dgetD (runE sha256hex (initial_global_data hour) (tr.take j.val))
            "pending_dob" Val.pyNone := by
  rcases verified_trace sha256hex tr (initial_global_data hour) hv with
    hcontra | ⟨i, ssn, cid, he, hdv, hvs⟩
  · exact absurd hcontra (by rw [show (dgetD (initial_global_data hour) "verified"
      Val.pyNone).truthy = false from rfl]; simp)
  · rcases dob_verified_trace sha256hex (tr.take i.val) (initial_global_data hour) hdv with
      hcontra | ⟨j, dob, cid2, hej, hpidj, hmj⟩
    · exact absurd hcontra (by rw [show (dgetD (initial_global_data hour) "dob_verified"
        Val.pyNone).truthy = false from rfl]; simp)
    · have hji : j.val < i.val :=
        Nat.lt_of_lt_of_le j.isLt (List.length_take_le i.val tr)
      have hjtr : j.val < tr.length := Nat.lt_trans hji i.isLt
      have hget : (tr.take i.val).get j = tr.get ⟨j.val, hjtr⟩ := by
        rw [List.get_eq_getElem, List.get_eq_getElem]
        exact List.getElem_take tr
      have htake : (tr.take i.val).take j.val = tr.take j.val := by
        rw [List.take_take, Nat.min_eq_left hji.le]
      refine ⟨i, ssn, cid, he, hdv, hvs, ⟨j.val, hjtr⟩, hji, dob, cid2, ?_, ?_⟩
      · rw [← hget]; exact hej
      · rw [← htake]; exact hmj

/-- Witness for C1 on the happy-path trace: the SSN event is at index 2 and the
DOB event strictly before it. -/
theorem C1_witness :
    ∃ i : Fin happy_trace.length, ∃ ssn cid,
      (happy_trace.get i).2 = Event.submit_ssn ssn cid ∧
      (dgetD (runE demo_hash (initial_global_data 9) (happy_trace.take i.val)) "dob_verified"
        Val.pyNone).truthy = true ∧
      verify_ssn_lookup demo_hash
        (dgetD (runE demo_hash (initial_global_data 9) (happy_trace.take i.val))
          "pending_patient_id" Val.pyNone) ssn = true ∧
      ∃ j : Fin happy_trace.length, j.val < i.val ∧ ∃ dob cid2,
        (happy_trace.get j).2 = Event.submit_dob dob cid2 ∧
        Val.str (normalize_dob dob) =
          dgetD (runE demo_hash (initial_global_data 9) (happy_trace.take j.val))
            "pending_dob" Val.pyNone :=
  C1_verified_requires_both_factors demo_hash 9 happy_trace (by decide)

/-! ### Claim C4 -/

/-- C4: from every session state — prior attempt counters and candidate patient
included — a successful `identify_by_phone` overwrites `pending_patient_id`,
`pending_patient_name` and `pending_dob` with the looked-up patient's data and
resets `verification_attempts` to 0, erasing accumulated lockout progress. -/
theorem C4_identify_overwrites_and_resets (sha256hex : String → String) (env : Env)
    (gd : Dict) (caller_id call_id : String) (p : String × Patient)
    (hf : (PATIENTS sha256hex).find? (fun q => q.1 == caller_id) = some p) :
    dget ((step sha256hex env gd (Event.identify_by_phone caller_id call_id)).1)
      "pending_patient_id" = some (Val.str p.2.id) ∧
    dget ((step sha256hex env gd (Event.identify_by_phone caller_id call_id)).1)
      "pending_patient_name" = some (Val.str p.2.name) ∧
    dget ((step sha256hex env gd (Event.identify_by_phone caller_id call_id)).1)
      "pending_dob" = some (Val.str p.2.dob) ∧
    dget ((step sha256hex env gd (Event.identify_by_phone caller_id call_id)).1)
      "verification_attempts" = some (Val.nat 0) := by
  rw [step_identify_found sha256hex env gd caller_id call_id p hf]
  refine ⟨?_, ?_, ?_, ?_⟩ <;> simp

/-- Witness for C4: a session with two failed DOB attempts for P001 is
re-identified as P002 and all pending fields are overwritten, the attempt
counter reset to 0. -/
theorem C4_witness :
    dget ((step demo_hash envA gd_two_dob_failures
      (Event.identify_by_phone "+15559876543" "c2")).1) "pending_patient_id"
      = some (Val.str "P002") ∧
    dget ((step demo_hash envA gd_two_dob_failures
      (Event.identify_by_phone "+15559876543" "c2")).1) "pending_patient_name"
      = some (Val.str "Jane Doe") ∧
    dget ((step demo_hash envA gd_two_dob_failures
      (Event.identify_by_phone "+15559876543" "c2")).1) "pending_dob"
      = some (Val.str "1990-07-22") ∧
    dget ((step demo_hash envA gd_two_dob_failures
      (Event.identify_by_phone "+15559876543" "c2")).1) "verification_attempts"
      = some (Val.nat 0) :=
  C4_identify_overwrites_and_resets demo_hash envA gd_two_dob_failures
    "+15559876543" "c2" ("+15559876543", ⟨"P002", "Jane Doe", "1990-07-22", demo_hash "5678"⟩)
    (by decide)

/-! ### Claim C7 -/

/-- C7: whenever `dob_verified` is not truthy, a `SubmitSSN` event is answered
with the corrective prompt demanding DOB verification first and the session is
left completely unchanged: same state dict, empty `update_global_data` payload,
no call-control actions (no pause/resume/hangup), and no audit event. -/
theorem C7_ssn_before_dob_is_pure_rejection (sha256hex : String → String) (env : Env)
    (gd : Dict) (ssn_last4 call_id : String)
    (hdv : (dgetD gd "dob_verified" Val.pyNone).truthy = false) :
    step sha256hex env gd (Event.submit_ssn ssn_last4 call_id) =
    (gd,
     { result := { response := "Please verify your date of birth first.",
                   post_process := false, update := [], actions := [] },
       log := [] }) :=
  step_ssn_precondition sha256hex env gd ssn_last4 call_id hdv

/-- Witness for C7: submitting an SSN right after identification (DOB not yet
verified) rejects without touching the session. -/
theorem C7_witness :
    step demo_hash envA gd_identified (Event.submit_ssn "1234" "c1") =
    (gd_identified,
     { result := { response := "Please verify your date of birth first.",
                   post_process := false, update := [], actions := [] },
       log := [] }) :=
  C7_ssn_before_dob_is_pure_rejection demo_hash envA gd_identified "1234" "c1" (by decide)

/-! ### Claim C6 -/

/-- C6: a department transfer is emitted if and only if the session is
verified: when `verified` is truthy each routing tool replies with its
connecting message and emits exactly the configured transfer intent; when it
is not truthy each routing tool denies with the identity-not-verified reply,
emits no intent at all and leaves the session unchanged. -/
theorem C6_transfer_iff_verified (sha256hex : String → String) (env : Env) (gd : Dict)
    (cid : String) :
    ((dgetD gd "verified" Val.pyNone).truthy = true →
      step sha256hex env gd (Event.route_appointments cid) =
        (gd, { result := { response := "Connecting you to scheduling.", post_process := true,
                           actions := [Intent.swml_transfer "/appointments" "Goodbye!" true] },
               log := [] }) ∧
      step sha256hex env gd (Event.route_billing cid) =
        (gd, { result := { response := "Connecting you to billing.", post_process := true,
                           actions := [Intent.swml_transfer "/billing" "Goodbye!" true] },
               log := [] }) ∧
      step sha256hex env gd (Event.route_medical cid) =
        (gd, { result := { response := "Connecting you to our medical team.", post_process := true,
                           actions := [Intent.swml_transfer "/medical" "Goodbye!" true] },
               log := [] })) ∧
    ((dgetD gd "verified" Val.pyNone).truthy = false →
      step sha256hex env gd (Event.route_appointments cid) =
        (gd, { result := { response := "I need to verify your identity first.",
                           post_process := false, update := [], actions := [] }, log := [] }) ∧
      step sha256hex env gd (Event.route_billing cid) =
        (gd, { result := { response := "I need to verify your identity first.",
                           post_process := false, update := [], actions := [] }, log := [] }) ∧
      step sha256hex env gd (Event.route_medical cid) =
        (gd, { result := { response := "I need to verify your identity first.",
                           post_process := false, update := [], actions := [] }, log := [] })) := by
  constructor
  · intro hv
    exact ⟨step_route_appointments_allowed sha256hex env gd cid hv,
           step_route_billing_allowed sha256hex env gd cid hv,
           step_route_medical_allowed sha256hex env gd cid hv⟩
  · intro hv
    exact ⟨step_route_appointments_denied sha256hex env gd cid hv,
           step_route_billing_denied sha256hex env gd cid hv,
           step_route_medical_denied sha256hex env gd cid hv⟩

/-- Witness for C6: billing transfer allowed in the fully verified session,
denied (with no transfer intent) right after identification. -/
theorem C6_witness :
    step demo_hash envA gd_verified (Event.route_billing "c1") =
      (gd_verified,
       { result := { response := "Connecting you to billing.", post_process := true,
                     actions := [Intent.swml_transfer "/billing" "Goodbye!" true] },
         log := [] }) ∧
    step demo_hash envA gd_identified (Event.route_billing "c1") =
      (gd_identified,
       { result := { response := "I need to verify your identity first.",
                     post_process := false, update := [], actions := [] }, log := [] }) :=
  ⟨((C6_transfer_iff_verified demo_hash envA gd_verified "c1").1 (by decide)).2.1,
   ((C6_transfer_iff_verified demo_hash envA gd_identified "c1").2 (by decide)).2.1⟩

/-! ### Claim C9 -/

/-- C9: a PauseRecording intent (`stop_record_call "main"`) is emitted exactly
on the successful DOB match, and every terminal transition out of the
SSN-pending stage emits a ResumeRecording intent (`record_call "main"`): the
successful SSN match emits exactly the resume intent, and the SSN mismatch
that exhausts the attempt budget emits the resume intent followed by the
Hangup intent. -/
theorem C9_pause_exactly_on_dob_resume_on_exit (sha256hex : String → String)
    (env : Env) (gd : Dict) (e : Event) :
    (Intent.stop_record_call "main" ∈ (step sha256hex env gd e).2.result.actions ↔
      ∃ dob cid, e = Event.submit_dob dob cid ∧
        (dgetD gd "pending_patient_id" Val.pyNone).truthy = true ∧
        Val.str (normalize_dob dob) = dgetD gd "pending_dob" Val.pyNone) ∧
    (∀ ssn cid, e = Event.submit_ssn ssn cid →
      (dgetD gd "dob_verified" Val.pyNone).truthy = true →
      (verify_ssn_lookup sha256hex (dgetD gd "pending_patient_id" Val.pyNone) ssn = true →
        (step sha256hex env gd e).2.result.actions = [Intent.record_call "main" true "mp3"]) ∧
      (verify_ssn_lookup sha256hex (dgetD gd "pending_patient_id" Val.pyNone) ssn = false →
        MAX_VERIFICATION_ATTEMPTS ≤ (dgetD gd "verification_attempts" (Val.nat 0)).asNat + 1 →
        (step sha256hex env gd e).2.result.actions =
          [Intent.record_call "main" true "mp3", Intent.hangup])) := by
  constructor
  · constructor
    · intro hmem
      cases e with
      | identify_by_phone caller_id call_id =>
          exfalso
          cases hf : (PATIENTS sha256hex).find? (fun q => q.1 == caller_id) with
          | some p =>
              rw [step_identify_found sha256hex env gd caller_id call_id p hf] at hmem
              simp at hmem
          | none =>
              rw [step_identify_not_found sha256hex env gd caller_id call_id hf] at hmem
              simp at hmem
      | submit_dob dob call_id =>
          rcases Bool.eq_false_or_eq_true ((dgetD gd "pending_patient_id" Val.pyNone).truthy)
            with hpid | hpid
          · by_cases hm : Val.str (normalize_dob dob) = dgetD gd "pending_dob" Val.pyNone
            · exact ⟨dob, call_id, rfl, hpid, hm⟩
            · exfalso
              by_cases h3 : MAX_VERIFICATION_ATTEMPTS ≤
                  (dgetD gd "verification_attempts" (Val.nat 0)).asNat + 1
              · rw [step_dob_lockout sha256hex env gd dob call_id hpid hm h3] at hmem
                simp at hmem
              · rw [step_dob_retry sha256hex env gd dob call_id hpid hm h3] at hmem
                simp at hmem
          · exfalso
            rw [step_dob_no_patient sha256hex env gd dob call_id hpid] at hmem
            simp at hmem
      | submit_ssn ssn call_id =>
          exfalso
          rcases Bool.eq_false_or_eq_true ((dgetD gd "dob_verified" Val.pyNone).truthy)
            with hdv | hdv
          · rcases Bool.eq_false_or_eq_true
              (verify_ssn_lookup sha256hex (dgetD gd "pending_patient_id" Val.pyNone) ssn)
              with hvs | hvs
            · rw [step_ssn_success sha256hex env gd ssn call_id hdv hvs] at hmem
              simp at hmem
            · by_cases h3 : MAX_VERIFICATION_ATTEMPTS ≤
                  (dgetD gd "verification_attempts" (Val.nat 0)).asNat + 1
              · rw [step_ssn_lockout sha256hex env gd ssn call_id hdv hvs h3] at hmem
                simp at hmem
              · rw [step_ssn_retry sha256hex env gd ssn call_id hdv hvs h3] at hmem
                simp at hmem
          · rw [step_ssn_precondition sha256hex env gd ssn call_id hdv] at hmem
            simp at hmem
      | route_appointments call_id =>
          exfalso
          rcases Bool.eq_false_or_eq_true ((dgetD gd "verified" Val.pyNone).truthy) with hv | hv
          · rw [step_route_appointments_allowed sha256hex env gd call_id hv] at hmem
            simp at hmem
          · rw [step_route_appointments_denied sha256hex env gd call_id hv] at hmem
            simp at hmem
      | route_billing call_id =>
          exfalso
          rcases Bool.eq_false_or_eq_true ((dgetD gd "verified" Val.pyNone).truthy) with hv | hv
          · rw [step_route_billing_allowed sha256hex env gd call_id hv] at hmem
            simp at hmem
          · rw [step_route_billing_denied sha256hex env gd call_id hv] at hmem
            simp at hmem
      | route_medical call_id =>
          exfalso
          rcases Bool.eq_false_or_eq_true ((dgetD gd "verified" Val.pyNone).truthy) with hv | hv
          · rw [step_route_medical_allowed sha256hex env gd call_id hv] at hmem
            simp at hmem
          · rw [step_route_medical_denied sha256hex env gd call_id hv] at hmem
            simp at hmem
    · rintro ⟨dob, cid, rfl, hpid, hm⟩
      rw [step_dob_match sha256hex env gd dob cid hpid hm]
      simp
  · rintro ssn cid rfl hdv
    refine ⟨fun hvs => ?_, fun hvs h3 => ?_⟩
    · rw [step_ssn_success sha256hex env gd ssn cid hdv hvs]
    · rw [step_ssn_lockout sha256hex env gd ssn cid hdv hvs h3]

/-- Witness for C9: on the happy path the pause intent is emitted at the DOB
step, the resume intent at the SSN step; on the shared-counter lockout path
the SSN step emits resume followed by hangup. -/
theorem C9_witness :
    Intent.stop_record_call "main" ∈
      (step demo_hash envA gd_identified e_dob_ok).2.result.actions ∧
    (step demo_hash envA (runE demo_hash (initial_global_data 9)
        [(envA, e_identify), (envA, e_dob_ok)]) e_ssn_ok).2.result.actions
      = [Intent.record_call "main" true "mp3"] ∧
    (step demo_hash envA gd_dob_ok_after_two_failures e_ssn_bad).2.result.actions
      = [Intent.record_call "main" true "mp3", Intent.hangup] :=
  ⟨(C9_pause_exactly_on_dob_resume_on_exit demo_hash envA gd_identified e_dob_ok).1.mpr
     ⟨"1985-03-15", "c1", rfl, by decide, by decide⟩,
   ((C9_pause_exactly_on_dob_resume_on_exit demo_hash envA
       (runE demo_hash (initial_global_data 9) [(envA, e_identify), (envA, e_dob_ok)])
       e_ssn_ok).2 "1234" "c1" rfl (by decide)).1 (by decide),
   ((C9_pause_exactly_on_dob_resume_on_exit demo_hash envA
       gd_dob_ok_after_two_failures e_ssn_bad).2 "0000" "c1" rfl (by decide)).2
     (by decide) (by decide)⟩

/-! ### Claim C8 -/

/-- C8: every audit payload passes through the redaction filter which removes
the keys `ssn`, `ssn_last4` and `dob`; moreover the security log emitted for a
`SubmitSSN` (resp. `SubmitDOB`) event is identical for any two submitted
secret values with the same match outcome and any two ambient environments —
the logged payload never depends on the raw submitted SSN/DOB value. -/
theorem C8_audit_payload_redacted (sha256hex : String → String) (env1 env2 : Env)
    (gd : Dict) (et : String) (data : Dict) (ssn1 ssn2 dob1 dob2 call_id : String) :
    ((log_security_event et data).data.all
      (fun p => !(p.1 == "ssn" || p.1 == "ssn_last4" || p.1 == "dob")) = true) ∧
    (verify_ssn_lookup sha256hex (dgetD gd "pending_patient_id" Val.pyNone) ssn1 =
       verify_ssn_lookup sha256hex (dgetD gd "pending_patient_id" Val.pyNone) ssn2 →
      (step sha256hex env1 gd (Event.submit_ssn ssn1 call_id)).2.log =
      (step sha256hex env2 gd (Event.submit_ssn ssn2 call_id)).2.log) ∧
    ((Val.str (normalize_dob dob1) = dgetD gd "pending_dob" Val.pyNone ↔
       Val.str (normalize_dob dob2) = dgetD gd "pending_dob" Val.pyNone) →
      (step sha256hex env1 gd (Event.submit_dob dob1 call_id)).2.log =
      (step sha256hex env2 gd (Event.submit_dob dob2 call_id)).2.log) := by
  refine ⟨?_, ?_, ?_⟩
  · rw [List.all_eq_true]
    intro x hx
    exact (List.mem_filter.mp hx).2
  · intro hsame
    rcases Bool.eq_false_or_eq_true ((dgetD gd "dob_verified" Val.pyNone).truthy)
      with hdv | hdv
    · rcases Bool.eq_false_or_eq_true
        (verify_ssn_lookup sha256hex (dgetD gd "pending_patient_id" Val.pyNone) ssn1)
        with hvs1 | hvs1
      · have hvs2 : verify_ssn_lookup sha256hex
            (dgetD gd "pending_patient_id" Val.pyNone) ssn2 = true := by
          rw [← hsame]; exact hvs1
        rw [step_ssn_success sha256hex env1 gd ssn1 call_id hdv hvs1,
            step_ssn_success sha256hex env2 gd ssn2 call_id hdv hvs2]
      · have hvs2 : verify_ssn_lookup sha256hex
            (dgetD gd "pending_patient_id" Val.pyNone) ssn2 = false := by
          rw [← hsame]; exact hvs1
        by_cases h3 : MAX_VERIFICATION_ATTEMPTS ≤
            (dgetD gd "verification_attempts" (Val.nat 0)).asNat + 1
        · rw [step_ssn_lockout sha256hex env1 gd ssn1 call_id hdv hvs1 h3,
              step_ssn_lockout sha256hex env2 gd ssn2 call_id hdv hvs2 h3]
        · rw [step_ssn_retry sha256hex env1 gd ssn1 call_id hdv hvs1 h3,
              step_ssn_retry sha256hex env2 gd ssn2 call_id hdv hvs2 h3]
    · rw [step_ssn_precondition sha256hex env1 gd ssn1 call_id hdv,
          step_ssn_precondition sha256hex env2 gd ssn2 call_id hdv]
  · intro hiff
    rcases Bool.eq_false_or_eq_true ((dgetD gd "pending_patient_id" Val.pyNone).truthy)
      with hpid | hpid
    · by_cases hm1 : Val.str (normalize_dob dob1) = dgetD gd "pending_dob" Val.pyNone
      · have hm2 := hiff.mp hm1
        rw [step_dob_match sha256hex env1 gd dob1 call_id hpid hm1,
            step_dob_match sha256hex env2 gd dob2 call_id hpid hm2]
      · have hm2 : ¬ Val.str (normalize_dob dob2) = dgetD gd "pending_dob" Val.pyNone :=
          fun h => hm1 (hiff.mpr h)
        by_cases h3 : MAX_VERIFICATION_ATTEMPTS ≤
            (dgetD gd "verification_attempts" (Val.nat 0)).asNat + 1
        · rw [step_dob_lockout sha256hex env1 gd dob1 call_id hpid hm1 h3,
              step_dob_lockout sha256hex env2 gd dob2 call_id hpid hm2 h3]
        · rw [step_dob_retry sha256hex env1 gd dob1 call_id hpid hm1 h3,
              step_dob_retry sha256hex env2 gd dob2 call_id hpid hm2 h3]
    · rw [step_dob_no_patient sha256hex env1 gd dob1 call_id hpid,
          step_dob_no_patient sha256hex env2 gd dob2 call_id hpid]

/-- Witness for C8: two different wrong SSN values (under different ambient
environments) produce the identical audit log entry, which carries no key
`ssn`, `ssn_last4` or `dob`. -/
theorem C8_witness :
    (step demo_hash envA gd_verified (Event.submit_ssn "0000" "c1")).2.log =
    (step demo_hash envB gd_verified (Event.submit_ssn "9999" "c1")).2.log :=
  (C8_audit_payload_redacted demo_hash envA envB gd_verified "SSN_VERIFICATION_FAILED"
    [] "0000" "9999" "1999-01-01" "1998-01-01" "c1").2.1 (by decide)

/-! ### Claim C2 (corrected): the attempt counter is shared across factors -/

/-- C2 counterexample: a caller who failed DOB twice and then passed DOB does
NOT have all 3 SSN attempts available — the very first SSN mismatch locks the
account (response "Too many incorrect attempts. Account locked." plus a Hangup
intent) instead of reporting "2 attempts remaining", because both factors
share the single `verification_attempts` counter. -/
theorem C2_counterexample :
    (step demo_hash envA gd_dob_ok_after_two_failures e_ssn_bad).2.result.response =
      "Too many incorrect attempts. Account locked." ∧
    Intent.hangup ∈
      (step demo_hash envA gd_dob_ok_after_two_failures e_ssn_bad).2.result.actions ∧
    ¬ (step demo_hash envA gd_dob_ok_after_two_failures e_ssn_bad).2.result.response =
      "That doesn't match. 2 attempts remaining." := by decide

/-- C2 amended: DOB and SSN mismatches increment the SAME
`verification_attempts` counter; the remaining-attempts count reported after a
mismatch on either factor equals `MAX_VERIFICATION_ATTEMPTS` minus the
combined attempts so far across both factors, and the SSN factor locks out as
soon as the combined count reaches the maximum. -/
theorem C2_amended_shared_attempt_counter (sha256hex : String → String) (env : Env)
    (gd : Dict) (dob ssn call_id : String) :
    ((dgetD gd "pending_patient_id" Val.pyNone).truthy = true →
     ¬ Val.str (normalize_dob dob) = dgetD gd "pending_dob" Val.pyNone →
     ¬ MAX_VERIFICATION_ATTEMPTS ≤ (dgetD gd "verification_attempts" (Val.nat 0)).asNat + 1 →
       dget ((step sha256hex env gd (Event.submit_dob dob call_id)).1) "verification_attempts"
         = some (Val.nat ((dgetD gd "verification_attempts" (Val.nat 0)).asNat + 1)) ∧
       (step sha256hex env gd (Event.submit_dob dob call_id)).2.result.response =
         "That doesn't match our records. " ++
           toString (MAX_VERIFICATION_ATTEMPTS -
             ((dgetD gd "verification_attempts" (Val.nat 0)).asNat + 1)) ++
           " attempts remaining.") ∧
    ((dgetD gd "dob_verified" Val.pyNone).truthy = true →
     verify_ssn_lookup sha256hex (dgetD gd "pending_patient_id" Val.pyNone) ssn = false →
     (¬ MAX_VERIFICATION_ATTEMPTS ≤ (dgetD gd "verification_attempts" (Val.nat 0)).asNat + 1 →
       dget ((step sha256hex env gd (Event.submit_ssn ssn call_id)).1) "verification_attempts"
         = some (Val.nat ((dgetD gd "verification_attempts" (Val.nat 0)).asNat + 1)) ∧
       (step sha256hex env gd (Event.submit_ssn ssn call_id)).2.result.response =
         "That doesn't match. " ++
           toString (MAX_VERIFICATION_ATTEMPTS -
             ((dgetD gd "verification_attempts" (Val.nat 0)).asNat + 1)) ++
           " attempts remaining.") ∧
     (MAX_VERIFICATION_ATTEMPTS ≤ (dgetD gd "verification_attempts" (Val.nat 0)).asNat + 1 →
       (step sha256hex env gd (Event.submit_ssn ssn call_id)).1 = gd ∧
       (step sha256hex env gd (Event.submit_ssn ssn call_id)).2.result.actions =
         [Intent.record_call "main" true "mp3", Intent.hangup])) := by
  refine ⟨fun hpid hm h3 => ?_, fun hdv hvs => ⟨fun h3 => ?_, fun h3 => ?_⟩⟩
  · rw [step_dob_retry sha256hex env gd dob call_id hpid hm h3]
    exact ⟨by simp, rfl⟩
  · rw [step_ssn_retry sha256hex env gd ssn call_id hdv hvs h3]
    exact ⟨by simp, rfl⟩
  · rw [step_ssn_lockout sha256hex env gd ssn call_id hdv hvs h3]
    exact ⟨rfl, rfl⟩

/-- Witness for the amended C2 in the lockout case: with two earlier DOB
failures (shared counter at 2) and a passed DOB, the first SSN mismatch
already satisfies the lockout condition. -/
theorem C2_amended_witness :
    (step demo_hash envA gd_dob_ok_after_two_failures
      (Event.submit_ssn "0000" "c1")).1 = gd_dob_ok_after_two_failures ∧
    (step demo_hash envA gd_dob_ok_after_two_failures
      (Event.submit_ssn "0000" "c1")).2.result.actions =
      [Intent.record_call "main" true "mp3", Intent.hangup] :=
  ((C2_amended_shared_attempt_counter demo_hash envA gd_dob_ok_after_two_failures
    "1999-01-01" "0000" "c1").2 (by decide) (by decide)).2 (by decide)

/-! ### Claim C3 (corrected): lockout is not persisted, the audit repeats -/

/-- C3 counterexample: the third DOB mismatch runs the lockout branch but
persists nothing, and re-delivering the identical event emits the
VERIFICATION_LOCKED audit event a second time — violating the no-duplicate
part of the idempotence claim. -/
theorem C3_counterexample :
    (step demo_hash envA gd_two_dob_failures e_dob_bad).1 = gd_two_dob_failures ∧
    (step demo_hash envA gd_two_dob_failures e_dob_bad).2.log =
      [⟨"VERIFICATION_LOCKED",
        [("call_id", Val.str "c1"), ("patient_id", Val.str "P001")]⟩] ∧
    (step demo_hash envA ((step demo_hash envA gd_two_dob_failures e_dob_bad).1)
        e_dob_bad).2.log =
      [⟨"VERIFICATION_LOCKED",
        [("call_id", Val.str "c1"), ("patient_id", Val.str "P001")]⟩] := by decide

/-- C3 amended: the DOB lockout branch leaves the session state unchanged (so
re-delivering the identical event yields the identical output, the state part
of idempotence), but each delivery re-emits the VERIFICATION_LOCKED audit
event and the Hangup intent — no LOCKED marker is persisted and the audit
entry is duplicated on re-delivery. -/
theorem C3_amended_lockout_unpersisted (sha256hex : String → String) (env : Env)
    (gd : Dict) (dob call_id : String)
    (hpid : (dgetD gd "pending_patient_id" Val.pyNone).truthy = true)
    (hm : ¬ Val.str (normalize_dob dob) = dgetD gd "pending_dob" Val.pyNone)
    (h3 : MAX_VERIFICATION_ATTEMPTS ≤ (dgetD gd "verification_attempts" (Val.nat 0)).asNat + 1) :
    (step sha256hex env gd (Event.submit_dob dob call_id)).1 = gd ∧
    (step sha256hex env gd (Event.submit_dob dob call_id)).2.result.actions =
      [Intent.hangup] ∧
    (step sha256hex env gd (Event.submit_dob dob call_id)).2.log =
      [⟨"VERIFICATION_LOCKED",
        [("call_id", Val.str call_id),
         ("patient_id", dgetD gd "pending_patient_id" Val.pyNone)]⟩] ∧
    step sha256hex env ((step sha256hex env gd (Event.submit_dob dob call_id)).1)
        (Event.submit_dob dob call_id) =
      step sha256hex env gd (Event.submit_dob dob call_id) := by
  have hs := step_dob_lockout sha256hex env gd dob call_id hpid hm h3
  refine ⟨?_, ?_, ?_, ?_⟩
  · rw [hs]
  · rw [hs]
  · rw [hs]
  · rw [hs]
    exact hs

/-- Witness for the amended C3 at the concrete lockout state. -/
theorem C3_amended_witness :
    (step demo_hash envA gd_two_dob_failures (Event.submit_dob "1999-01-01" "c1")).1 =
      gd_two_dob_failures ∧
    (step demo_hash envA gd_two_dob_failures
      (Event.submit_dob "1999-01-01" "c1")).2.result.actions = [Intent.hangup] ∧
    (step demo_hash envA gd_two_dob_failures (Event.submit_dob "1999-01-01" "c1")).2.log =
      [⟨"VERIFICATION_LOCKED",
        [("call_id", Val.str "c1"),
         ("patient_id", dgetD gd_two_dob_failures "pending_patient_id" Val.pyNone)]⟩] ∧
    step demo_hash envA
        ((step demo_hash envA gd_two_dob_failures (Event.submit_dob "1999-01-01" "c1")).1)
        (Event.submit_dob "1999-01-01" "c1") =
      step demo_hash envA gd_two_dob_failures (Event.submit_dob "1999-01-01" "c1") :=
  C3_amended_lockout_unpersisted demo_hash envA gd_two_dob_failures "1999-01-01" "c1"
    (by decide) (by decide) (by decide)

/-! ### Claim C5 (corrected): the candidate patient id is not immutable -/

/-- C5 counterexample: after a session has been identified as P001, a second
successful `identify_by_phone` with a different phone number is processed
normally (greeting reply, PATIENT_IDENTIFIED log) and changes
`pending_patient_id` from P001 to P002 — it is neither a no-op nor a
precondition violation. -/
theorem C5_counterexample :
    dget gd_identified "pending_patient_id" = some (Val.str "P001") ∧
    dget ((step demo_hash envA gd_identified
        (Event.identify_by_phone "+15559876543" "c1")).1) "pending_patient_id"
      = some (Val.str "P002") ∧
    (step demo_hash envA gd_identified
        (Event.identify_by_phone "+15559876543" "c1")).2.result.response =
      "Good morning, Jane Doe. For security, please verify your date of birth." := by
  decide

/-- C5 amended: `pending_patient_id` is mutable within a session — every
successful `identify_by_phone`, including one arriving when a candidate
patient is already set, overwrites it with the newly looked-up patient's id
and is processed as a normal identification (greeting reply and
PATIENT_IDENTIFIED audit event), not rejected. -/
theorem C5_amended_candidate_id_mutable (sha256hex : String → String) (env : Env)
    (gd : Dict) (caller_id call_id : String) (p : String × Patient) (v : Val)
    (hprev : dget gd "pending_patient_id" = some v)
    (hf : (PATIENTS sha256hex).find? (fun q => q.1 == caller_id) = some p) :
    dget ((step sha256hex env gd (Event.identify_by_phone caller_id call_id)).1)
      "pending_patient_id" = some (Val.str p.2.id) ∧
    (step sha256hex env gd (Event.identify_by_phone caller_id call_id)).2.result.response =
      env.greeting ++ ", " ++ p.2.name ++ ". For security, please verify your date of birth." ∧
    (step sha256hex env gd (Event.identify_by_phone caller_id call_id)).2.log =
      [⟨"PATIENT_IDENTIFIED",
        [("call_id", Val.str call_id), ("patient_id", Val.str p.2.id)]⟩] := by
  rw [step_identify_found sha256hex env gd caller_id call_id p hf]
  exact ⟨by simp, rfl, rfl⟩

/-- Witness for the amended C5: re-identifying the already-identified session
as P002 overwrites the candidate id. -/
theorem C5_amended_witness :
    dget ((step demo_hash envA gd_identified
        (Event.identify_by_phone "+15559876543" "c1")).1) "pending_patient_id"
      = some (Val.str "P002") ∧
    (step demo_hash envA gd_identified
        (Event.identify_by_phone "+15559876543" "c1")).2.result.response =
      "Good morning" ++ ", " ++ "Jane Doe" ++
        ". For security, please verify your date of birth." ∧
    (step demo_hash envA gd_identified
        (Event.identify_by_phone "+15559876543" "c1")).2.log =
      [⟨"PATIENT_IDENTIFIED",
        [("call_id", Val.str "c1"), ("patient_id", Val.str "P002")]⟩] :=
  C5_amended_candidate_id_mutable demo_hash envA gd_identified "+15559876543" "c1"
    ("+15559876543", ⟨"P002", "Jane Doe", "1990-07-22", demo_hash "5678"⟩)
    (Val.str "P001") (by decide) (by decide)

/-! ### Claim C10 (corrected): verified_at is overwritten on re-delivery -/

/-- C10 counterexample: the happy-path session is verified at the first
timestamp, but re-delivering the identical correct `SubmitSSN` later
overwrites `verified_at` with the new timestamp and emits a second
VERIFICATION_SUCCESS audit event. -/
theorem C10_counterexample :
    dget gd_verified "verified_at" = some (Val.str "2026-10-12T09:00:00") ∧
    dget ((step demo_hash envB gd_verified e_ssn_ok).1) "verified_at"
      = some (Val.str "2026-10-12T10:30:00") ∧
    (step demo_hash envB gd_verified e_ssn_ok).2.log =
      [⟨"VERIFICATION_SUCCESS",
        [("call_id", Val.str "c1"), ("patient_id", Val.str "P001")]⟩] := by decide

/-- C10 amended: `verified_at` is (re)written on every `SubmitSSN` processed
with `dob_verified` truthy and a matching digest — including when the session
is already VERIFIED — and each such event emits a VERIFICATION_SUCCESS audit
event; the timestamp is therefore last-success, not set-exactly-once. -/
theorem C10_amended_verified_at_last_success (sha256hex : String → String) (env : Env)
    (gd : Dict) (ssn call_id : String)
    (hdv : (dgetD gd "dob_verified" Val.pyNone).truthy = true)
    (hvs : verify_ssn_lookup sha256hex (dgetD gd "pending_patient_id" Val.pyNone) ssn = true) :
    dget ((step sha256hex env gd (Event.submit_ssn ssn call_id)).1) "verified_at"
      = some (Val.str env.now) ∧
    (step sha256hex env gd (Event.submit_ssn ssn call_id)).2.log =
      [⟨"VERIFICATION_SUCCESS",
        [("call_id", Val.str call_id),
         ("patient_id", dgetD gd "pending_patient_id" Val.pyNone)]⟩] := by
  rw [step_ssn_success sha256hex env gd ssn call_id hdv hvs]
  exact ⟨by simp, rfl⟩

/-- Witness for the amended C10 at the already-verified session with a later
timestamp. -/
theorem C10_amended_witness :
    dget ((step demo_hash envB gd_verified (Event.submit_ssn "1234" "c1")).1) "verified_at"
      = some (Val.str "2026-10-12T10:30:00") ∧
    (step demo_hash envB gd_verified (Event.submit_ssn "1234" "c1")).2.log =
      [⟨"VERIFICATION_SUCCESS",
        [("call_id", Val.str "c1"),
         ("patient_id", dgetD gd_verified "pending_patient_id" Val.pyNone)]⟩] :=
  C10_amended_verified_at_last_success demo_hash envB gd_verified "1234" "c1"
    (by decide) (by decide)
